import Mathlib

/-!
Shallow embedding of `src/main.py`, a command-line SQLite demo managing a
small shop schema (products, customers, orders) with seed inserts, aggregate
report queries, one bulk price update, and a menu loop with manual
commit/rollback.  SQL `REAL` prices are modelled as `ℚ`; table rows as lists
of structures in insertion order; the engine's fallible statements return
`Except`.
-/

namespace Shop

/-- A row of the `products` table (`id` is the AUTOINCREMENT primary key). -/
structure Product where
  id : Nat
  name : String
  category : String
  price : ℚ
deriving Repr, DecidableEq

/-- A row of the `customers` table (`email` is declared UNIQUE). -/
structure Customer where
  id : Nat
  first_name : String
  last_name : String
  email : String
deriving Repr, DecidableEq

/-- A row of the `orders` table.  `order_date` is an opaque string: the source
stores `date.today()` and no query in the program ever inspects it. -/
structure Order where
  id : Nat
  customer_id : Nat
  product_id : Nat
  quantity : Nat
  order_date : String
deriving Repr, DecidableEq

/-- The three tables created by `setup_database`, each as its list of rows in
insertion order. -/
structure DBState where
  products : List Product
  customers : List Customer
  orders : List Order
deriving Repr, DecidableEq

/-- The freshly created schema: `main_menu` deletes the database file and
`setup_database` creates the three empty tables. -/
def emptyDB : DBState := ⟨[], [], []⟩

/-- Next AUTOINCREMENT key: one more than the largest id present. -/
def nextId (ids : List Nat) : Nat := ids.foldr Nat.max 0 + 1

/-- The engine executing `INSERT INTO products (name, category, price)
VALUES (?, ?, ?)`: the primary key is auto-assigned. -/
def insertProduct (db : DBState) (name category : String) (price : ℚ) :
    DBState :=
  { db with products :=
      db.products ++ [⟨nextId (db.products.map Product.id), name, category, price⟩] }

/-- The engine executing `INSERT INTO customers (first_name, last_name, email)
VALUES (?, ?, ?)`: rejects a duplicate email (UNIQUE constraint). -/
def insertCustomer (db : DBState) (first_name last_name email : String) :
    Except String DBState :=
  if db.customers.any (fun c => c.email == email) then
    .error "UNIQUE constraint failed: customers.email"
  else
    .ok { db with customers :=
      db.customers ++ [⟨nextId (db.customers.map Customer.id), first_name, last_name, email⟩] }

/-- Whether the connection enforces the schema's FOREIGN KEY clauses.
Python's sqlite3 leaves `PRAGMA foreign_keys` at its default OFF and
`src/main.py` never issues the pragma, so the program always runs with this
set to `false`. -/
def sqliteDefaultForeignKeys : Bool := false

/-- The engine executing `INSERT INTO orders (customer_id, product_id,
quantity, order_date) VALUES (?, ?, ?, ?)`: the declared FOREIGN KEY
constraints are checked only when `fk` (foreign-key enforcement) is on. -/
def insertOrder (fk : Bool) (db : DBState) (customer_id product_id quantity : Nat)
    (order_date : String) : Except String DBState :=
  if fk && !(db.customers.any (fun c => c.id == customer_id) &&
             db.products.any (fun p => p.id == product_id)) then
    .error "FOREIGN KEY constraint failed"
  else
    .ok { db with orders :=
      db.orders ++ [⟨nextId (db.orders.map Order.id), customer_id, product_id, quantity, order_date⟩] }

/-- The literal `products_to_add` seed list of `add_products`. -/
def products_to_add : List (String × String × ℚ) :=
  [("iPhone 15 Pro", "smartphones", 1199.99),
   ("Samsung Galaxy S25", "smartphones", 1099.99),
   ("MacBook Air M4", "laptops", 1299.00),
   ("Dell XPS 15", "laptops", 1899.50),
   ("iPad Pro", "tablets", 999.00),
   ("Samsung Galaxy Tab S10", "tablets", 750.00)]

/-- The literal `customers_to_add` seed list of `add_customers`. -/
def customers_to_add : List (String × String × String) :=
  [("John", "Doe", "john.doe@example.com"),
   ("Jane", "Smith", "jane.smith@example.com"),
   ("Peter", "Jones", "peter.jones@example.com")]

/-- The literal `orders_to_add` seed list of `add_orders`; `today` stands for
`date.today()`. -/
def orders_to_add (today : String) : List (Nat × Nat × Nat × String) :=
  [(1, 1, 1, today),
   (1, 3, 1, today),
   (2, 2, 2, today),
   (3, 5, 1, today),
   (2, 1, 1, today)]

/-- `add_products`: `executemany` of the seed list; reports
`cursor.rowcount`, the number of rows inserted. -/
def add_products (db : DBState) : DBState × Nat :=
  (products_to_add.foldl (fun d r => insertProduct d r.1 r.2.1 r.2.2) db,
   products_to_add.length)

/-- `add_customers`: `executemany` of the seed list; a UNIQUE violation
aborts the batch and surfaces as an error. -/
def add_customers (db : DBState) : Except String (DBState × Nat) := do
  let db' ← customers_to_add.foldlM (fun d r => insertCustomer d r.1 r.2.1 r.2.2) db
  pure (db', customers_to_add.length)

/-- `add_orders`: `executemany` of the seed list under foreign-key mode
`fk`; a constraint violation aborts the batch and surfaces as an error. -/
def add_orders (fk : Bool) (today : String) (db : DBState) :
    Except String (DBState × Nat) := do
  let db' ← (orders_to_add today).foldlM
      (fun d r => insertOrder fk d r.1 r.2.1 r.2.2.1 r.2.2.2) db
  pure (db', (orders_to_add today).length)

/-- `update_smartphone_prices`: `UPDATE products SET price = price * 1.10
WHERE category = 'smartphones'`; reports `cursor.rowcount`, the number of
matched rows. -/
def update_smartphone_prices (db : DBState) : DBState × Nat :=
  ({ db with products := db.products.map (fun p =>
      if p.category == "smartphones" then { p with price := p.price * 1.10 } else p) },
   (db.products.filter (fun p => p.category == "smartphones")).length)

/-- The join `FROM orders o JOIN products p ON o.product_id = p.id`
(rows in orders-major order, as the engine scans them). -/
def joinOP (db : DBState) : List (Order × Product) :=
  db.orders.flatMap (fun o =>
    (db.products.filter (fun p => p.id == o.product_id)).map (fun p => (o, p)))

/-- `get_total_sales`: `SELECT SUM(p.price * o.quantity) ...`; `SUM` over an
empty set of rows is SQL NULL, modelled as `none`. -/
def get_total_sales (db : DBState) : Option ℚ :=
  match joinOP db with
  | [] => none
  | rows => some ((rows.map (fun r => r.2.price * (r.1.quantity : ℚ))).sum)

/-- The join `FROM customers c INNER JOIN orders o ON c.id = o.customer_id`
(rows in customers-major order). -/
def joinCO (db : DBState) : List (Customer × Order) :=
  db.customers.flatMap (fun c =>
    (db.orders.filter (fun o => o.customer_id == c.id)).map (fun o => (c, o)))

/-- Whether a customer has at least one order: the condition under which the
inner join keeps the customer. -/
def hasOrder (os : List Order) (c : Customer) : Bool :=
  os.any (fun o => o.customer_id == c.id)

/-- One output row of `get_orders_per_customer` for the group of join rows
with customer id `i`: `c.first_name, c.last_name, COUNT(o.id)`. -/
def customerRow (rows : List (Customer × Order)) (i : Nat) :
    String × String × Nat :=
  match rows.filter (fun r => r.1.id == i) with
  | [] => ("", "", 0)
  | r :: _ => (r.1.first_name, r.1.last_name, (rows.filter (fun r => r.1.id == i)).length)

/-- `get_orders_per_customer`: inner join of customers and orders, grouped
by `c.id`; one row per customer id occurring in the join. -/
def get_orders_per_customer (db : DBState) : List (String × String × Nat) :=
  let rows := joinCO db
  ((rows.map (fun r => r.1.id)).dedup).map (customerRow rows)

/-- `SUM(p.price * o.quantity)` over the join rows of the order with id `i`
(the `GROUP BY o.id` group). -/
def orderTotal (rows : List (Order × Product)) (i : Nat) : ℚ :=
  ((rows.filter (fun r => r.1.id == i)).map
    (fun r => r.2.price * (r.1.quantity : ℚ))).sum

/-- `get_average_order_value`: `AVG(order_total)` over the subquery grouping
the orders/products join by `o.id`; `AVG` of no rows is SQL NULL. -/
def get_average_order_value (db : DBState) : Option ℚ :=
  let rows := joinOP db
  let ids := (rows.map (fun r => r.1.id)).dedup
  if ids.isEmpty then none
  else some ((ids.map (orderTotal rows)).sum / (ids.length : ℚ))

/-- Modelled from the spec: the plain mean of `price * quantity` taken over
the individual order rows (each joined with its product), the right-hand
side of the spec's stated equivalence for average order value. -/
def spec_average_order_value (db : DBState) : Option ℚ :=
  let rows := joinOP db
  if rows.isEmpty then none
  else some ((rows.map (fun r => r.2.price * (r.1.quantity : ℚ))).sum / (rows.length : ℚ))

/-- `get_most_popular_category`: group the orders/products join by
`p.category` with `COUNT(o.id)`, `ORDER BY orders_in_category DESC LIMIT 1`:
at most one row, carrying a category of maximal order count. -/
def get_most_popular_category (db : DBState) : List (String × Nat) :=
  let rows := joinOP db
  let groups := ((rows.map (fun r => r.2.category)).dedup).map
    (fun c => (c, (rows.filter (fun r => r.2.category == c)).length))
  match groups.foldl
      (fun best g => match best with
        | none => some g
        | some b => if b.2 < g.2 then some g else some b) none with
  | none => []
  | some g => [g]

/-- `get_products_per_category`: `SELECT category, COUNT(id) FROM products
GROUP BY category`. -/
def get_products_per_category (db : DBState) : List (String × Nat) :=
  ((db.products.map Product.category).dedup).map
    (fun c => (c, (db.products.filter (fun p => p.category == c)).length))

/-- Python's `str.lower()`: lower-case every character (structural form of
`String.toLower`, character by character). -/
def strLower (s : String) : String := ⟨s.data.map Char.toLower⟩

/-- The connection's transactional view: the durable database content and
the uncommitted working content the open transaction sees. -/
structure ConnState where
  committed : DBState
  pending : DBState
deriving Repr, DecidableEq

/-- Observable transaction events of one trip through the menu loop. -/
inductive Effect where
  | savePrompt
  | commit
  | rollback
  | errorPrinted
deriving Repr, DecidableEq

/-- `choice in ['1', '2', '3', '9']` from `main_menu`. -/
def isModification (choice : String) : Bool :=
  ["1", "2", "3", "9"].contains choice

/-- The keys of the `actions` dispatch dictionary. -/
def validChoices : List String :=
  ["1", "2", "3", "4", "5", "6", "7", "8", "9"]

/-- Dispatch of `func(conn)` for one menu choice: the mutating actions
rewrite the pending state, the read actions leave it unchanged (their
printing is not modelled). -/
def runAction (fk : Bool) (today : String) (choice : String) (db : DBState) :
    Except String DBState :=
  if choice == "1" then .ok (add_products db).1
  else if choice == "2" then (add_customers db).map Prod.fst
  else if choice == "3" then (add_orders fk today db).map Prod.fst
  else if choice == "9" then .ok (update_smartphone_prices db).1
  else .ok db

/-- One iteration of the `main_menu` loop body for a recognized, non-exit
choice.  `saveInput` is the line read at the save prompt (consulted only
when the prompt is shown); `err` injects a `sqlite3.Error` raised by the
engine while the action executes.  For the read actions `execute_and_print`
catches and prints such an error itself, so it never reaches the loop's
handler; for the mutating actions it propagates to the loop, which prints it
and rolls back, skipping the save prompt. -/
def menuStep (fk : Bool) (today : String) (st : ConnState)
    (choice saveInput : String) (err : Bool) : ConnState × List Effect :=
  if !(validChoices.contains choice) then (st, [])
  else if err then
    if isModification choice then
      ({ st with pending := st.committed }, [.errorPrinted, .rollback])
    else
      (st, [.errorPrinted])
  else
    match runAction fk today choice st.pending with
    | .error _ => ({ st with pending := st.committed }, [.errorPrinted, .rollback])
    | .ok db' =>
      if isModification choice then
        if strLower saveInput == "y" then
          ({ committed := db', pending := db' }, [.savePrompt, .commit])
        else
          ({ st with pending := st.committed }, [.savePrompt, .rollback])
      else
        ({ st with pending := db' }, [])

/-- The row counts of the three tables, the observable of the rollback
claims. -/
def rowCounts (db : DBState) : Nat × Nat × Nat :=
  (db.products.length, db.customers.length, db.orders.length)

/-- The database produced by the seeding sequence the menu offers: actions
1 (add products), 2 (add customers), 3 (add orders), each committed, under
the program's foreign-key mode. -/
def seedResult (today : String) : Except String DBState := do
  let (db1, _) := add_products emptyDB
  let (db2, _) ← add_customers db1
  let (db3, _) ← add_orders sqliteDefaultForeignKeys today db2
  pure db3

/-- The seeded database (the seeding sequence never fails; see
`seededDB_eq`). -/
def seededDB (today : String) : DBState :=
  match seedResult today with
  | .ok db => db
  | .error _ => emptyDB

/-- The rows the seeding sequence produces, written out (see `seededDB_eq`):
AUTOINCREMENT assigns ids 1.. in insertion order. -/
def seedRows (today : String) : DBState :=
  ⟨[⟨1, "iPhone 15 Pro", "smartphones", 1199.99⟩,
    ⟨2, "Samsung Galaxy S25", "smartphones", 1099.99⟩,
    ⟨3, "MacBook Air M4", "laptops", 1299.00⟩,
    ⟨4, "Dell XPS 15", "laptops", 1899.50⟩,
    ⟨5, "iPad Pro", "tablets", 999.00⟩,
    ⟨6, "Samsung Galaxy Tab S10", "tablets", 750.00⟩],
   [⟨1, "John", "Doe", "john.doe@example.com"⟩,
    ⟨2, "Jane", "Smith", "jane.smith@example.com"⟩,
    ⟨3, "Peter", "Jones", "peter.jones@example.com"⟩],
   [⟨1, 1, 1, 1, today⟩, ⟨2, 1, 3, 1, today⟩, ⟨3, 2, 2, 2, today⟩,
    ⟨4, 3, 5, 1, today⟩, ⟨5, 2, 1, 1, today⟩]⟩

theorem seededDB_eq (today : String) : seededDB today = seedRows today := rfl

/-- C1: the spec expects every inserted order's `customer_id` and
`product_id` to reference existing rows, any violating insertion being
rejected by the engine.  The code declares the FOREIGN KEY constraints but
runs with SQLite's enforcement left at its default OFF (no
`PRAGMA foreign_keys = ON` anywhere), so `add_orders` on a fresh database —
menu choice 3 before choices 1 and 2 — succeeds, reporting 5 rows, and
leaves orders referencing customers 1, 2, 3 while the customers table is
empty.  With enforcement on, the same batch would be rejected, as the claim
expects. -/
theorem c1_dangling_references_not_rejected :
    ∀ today : String,
      (add_orders sqliteDefaultForeignKeys today emptyDB).map
        (fun r => (r.1.customers, r.1.orders.map Order.customer_id, r.2)) =
        .ok ([], [1, 1, 2, 3, 2], 5) ∧
      (add_orders true today emptyDB).isOk = false :=
  fun _ => ⟨rfl, rfl⟩

/-- C9: on an empty target table, `add_products` reports 6 inserted rows,
`add_customers` 3, and `add_orders` 5 — each the length of its hardcoded
seed list. -/
theorem c9_reported_insert_counts :
    ∀ today : String,
      (add_products emptyDB).2 = products_to_add.length ∧
      products_to_add.length = 6 ∧
      (add_customers emptyDB).map Prod.snd = .ok customers_to_add.length ∧
      customers_to_add.length = 3 ∧
      (add_orders sqliteDefaultForeignKeys today emptyDB).map Prod.snd =
        .ok (orders_to_add today).length ∧
      (orders_to_add today).length = 5 :=
  fun _ => ⟨rfl, rfl, rfl, rfl, rfl, rfl⟩

/-- C8: on the seeded database the most-popular-category query returns
exactly one row, `("smartphones", 3)` — the category with the unique
highest order count. -/
theorem c8_most_popular_category_on_seed :
    ∀ today : String,
      get_most_popular_category (seededDB today) = [("smartphones", 3)] ∧
      (get_most_popular_category (seededDB today)).length = 1 := by
  intro today
  have h : get_most_popular_category (seededDB today) = [("smartphones", 3)] := by
    rw [seededDB_eq]
    simp [get_most_popular_category, joinOP, seedRows,
      List.dedup_cons_of_mem, List.dedup_cons_of_not_mem]
  exact ⟨h, by rw [h]; rfl⟩

/-- C4: on the seeded database the total-sales report returns
`SUM(price * quantity)` over the five seeded orders,
`1199.99 + 1299.00 + 2 * 1099.99 + 999.00 + 1199.99 = 6897.96`. -/
theorem c4_total_sales_on_seed :
    ∀ today : String,
      get_total_sales (seededDB today) =
        some ((1199.99 : ℚ) + 1299.00 + 2 * 1099.99 + 999.00 + 1199.99) ∧
      ((1199.99 : ℚ) + 1299.00 + 2 * 1099.99 + 999.00 + 1199.99) = 6897.96 := by
  intro today
  constructor
  · rw [seededDB_eq]
    simp [get_total_sales, joinOP, seedRows]
    norm_num
  · norm_num

/-- C2: answering the save prompt of any mutating action with anything other
than an affirmative rolls back, restoring the row counts of all three tables
to their values from immediately before the action (`hclean` is the loop
invariant that no uncommitted changes are pending when a choice is read). -/
theorem c2_rollback_restores_row_counts
    (fk : Bool) (today : String) (st : ConnState) (choice saveInput : String)
    (hmod : isModification choice = true)
    (hclean : st.pending = st.committed)
    (hsave : strLower saveInput ≠ "y") :
    rowCounts ((menuStep fk today st choice saveInput false).1.pending) =
      rowCounts st.pending ∧
    rowCounts ((menuStep fk today st choice saveInput false).1.committed) =
      rowCounts st.committed := by
  have hc : choice = "1" ∨ choice = "2" ∨ choice = "3" ∨ choice = "9" := by
    simpa [isModification] using hmod
  have hv : choice ∈ validChoices := by
    rcases hc with rfl | rfl | rfl | rfl <;> decide
  have hsb : (strLower saveInput == "y") = false := by
    simpa using hsave
  cases hR : runAction fk today choice st.committed with
  | error e => simp [menuStep, hv, hR, hmod, hsb, hclean]
  | ok db' => simp [menuStep, hv, hR, hmod, hsb, hclean]

/-- Witness for C2: declining the save prompt after add-products on the
fresh database leaves all row counts unchanged. -/
theorem c2_rollback_restores_row_counts_witness :
    isModification "1" = true ∧
    (ConnState.mk emptyDB emptyDB).pending = (ConnState.mk emptyDB emptyDB).committed ∧
    strLower "n" ≠ "y" ∧
    (rowCounts ((menuStep false "2026-10-12" ⟨emptyDB, emptyDB⟩ "1" "n" false).1.pending) =
       rowCounts (ConnState.mk emptyDB emptyDB).pending ∧
     rowCounts ((menuStep false "2026-10-12" ⟨emptyDB, emptyDB⟩ "1" "n" false).1.committed) =
       rowCounts (ConnState.mk emptyDB emptyDB).committed) :=
  ⟨by decide, rfl, by decide,
   c2_rollback_restores_row_counts false "2026-10-12" ⟨emptyDB, emptyDB⟩ "1" "n"
     (by decide) rfl (by decide)⟩

/-- C3 counterexample: for the read action "4" (total sales) an engine error
during execution is caught and printed inside `execute_and_print`, so the
menu loop performs no rollback, contrary to the claim that every action's
engine error is followed by a rollback. -/
theorem c3_read_action_error_performs_no_rollback :
    Effect.rollback ∉ (menuStep false "2026-10-12" ⟨emptyDB, emptyDB⟩ "4" "" true).2 := by
  decide

/-- C3 amended: when the engine reports an error during an action's
execution the loop returns to awaiting-choice without the save prompt; for
the mutating actions (1, 2, 3, 9) the error propagates to the loop, which
prints it and rolls back, but for the read actions (4-8) it is caught and
printed inside `execute_and_print` and no rollback is performed. -/
theorem c3_error_rollback_only_for_mutating_actions
    (fk : Bool) (today : String) (st : ConnState) (choice saveInput : String)
    (hv : choice ∈ validChoices) :
    Effect.savePrompt ∉ (menuStep fk today st choice saveInput true).2 ∧
    (isModification choice = true →
      (menuStep fk today st choice saveInput true).2 = [Effect.errorPrinted, Effect.rollback] ∧
      (menuStep fk today st choice saveInput true).1.pending = st.committed ∧
      (menuStep fk today st choice saveInput true).1.committed = st.committed) ∧
    (isModification choice = false →
      (menuStep fk today st choice saveInput true).2 = [Effect.errorPrinted] ∧
      (menuStep fk today st choice saveInput true).1 = st) := by
  cases hm : isModification choice <;> simp [menuStep, hv, hm]

/-- Witness for the amended C3: an engine error during add-products is
printed and rolled back with no save prompt. -/
theorem c3_error_rollback_only_for_mutating_actions_witness :
    ("1" : String) ∈ validChoices ∧
    (Effect.savePrompt ∉ (menuStep false "2026-10-12" ⟨emptyDB, emptyDB⟩ "1" "" true).2 ∧
     (isModification "1" = true →
       (menuStep false "2026-10-12" ⟨emptyDB, emptyDB⟩ "1" "" true).2 =
         [Effect.errorPrinted, Effect.rollback] ∧
       (menuStep false "2026-10-12" ⟨emptyDB, emptyDB⟩ "1" "" true).1.pending =
         (ConnState.mk emptyDB emptyDB).committed ∧
       (menuStep false "2026-10-12" ⟨emptyDB, emptyDB⟩ "1" "" true).1.committed =
         (ConnState.mk emptyDB emptyDB).committed) ∧
     (isModification "1" = false →
       (menuStep false "2026-10-12" ⟨emptyDB, emptyDB⟩ "1" "" true).2 = [Effect.errorPrinted] ∧
       (menuStep false "2026-10-12" ⟨emptyDB, emptyDB⟩ "1" "" true).1 =
         ConnState.mk emptyDB emptyDB)) :=
  ⟨by decide,
   c3_error_rollback_only_for_mutating_actions false "2026-10-12" ⟨emptyDB, emptyDB⟩ "1" ""
     (by decide)⟩

/-- C6: after a mutating action completes without error, the loop reads one
line and commits exactly when the lower-cased line equals "y"; every other
input rolls back. -/
theorem c6_commit_iff_affirmative
    (fk : Bool) (today : String) (st : ConnState) (choice saveInput : String)
    (hmod : isModification choice = true)
    (hok : (runAction fk today choice st.pending).isOk = true) :
    ((Effect.commit ∈ (menuStep fk today st choice saveInput false).2) ↔
       strLower saveInput = "y") ∧
    ((Effect.rollback ∈ (menuStep fk today st choice saveInput false).2) ↔
       ¬ strLower saveInput = "y") := by
  have hc : choice = "1" ∨ choice = "2" ∨ choice = "3" ∨ choice = "9" := by
    simpa [isModification] using hmod
  have hv : choice ∈ validChoices := by
    rcases hc with rfl | rfl | rfl | rfl <;> decide
  obtain ⟨db', hR⟩ : ∃ db', runAction fk today choice st.pending = .ok db' := by
    cases hE : runAction fk today choice st.pending with
    | ok d => exact ⟨d, rfl⟩
    | error e => rw [hE] at hok; exact absurd hok (by simp [Except.isOk, Except.toBool])
  by_cases hy : strLower saveInput = "y"
  · have hb : (strLower saveInput == "y") = true := by simpa using hy
    simp [menuStep, hv, hR, hmod, hb, hy]
  · have hb : (strLower saveInput == "y") = false := by simpa using hy
    simp [menuStep, hv, hR, hmod, hb, hy]

/-- Witness for C6: the upper-case affirmative "Y" also commits (and does
not roll back) after add-products on the fresh database. -/
theorem c6_commit_iff_affirmative_witness :
    isModification "1" = true ∧
    (runAction false "2026-10-12" "1" (ConnState.mk emptyDB emptyDB).pending).isOk = true ∧
    (((Effect.commit ∈ (menuStep false "2026-10-12" ⟨emptyDB, emptyDB⟩ "1" "Y" false).2) ↔
        strLower "Y" = "y") ∧
     ((Effect.rollback ∈ (menuStep false "2026-10-12" ⟨emptyDB, emptyDB⟩ "1" "Y" false).2) ↔
        ¬ strLower "Y" = "y")) :=
  ⟨by decide, rfl,
   c6_commit_iff_affirmative false "2026-10-12" ⟨emptyDB, emptyDB⟩ "1" "Y" (by decide) rfl⟩

/-- Applying the price update twice multiplies every smartphone price by
`1.10 * 1.10 = 121/100` and leaves every other product unchanged. -/
theorem update_smartphone_prices_twice (db : DBState) :
    (update_smartphone_prices (update_smartphone_prices db).1).1.products =
      db.products.map (fun p =>
        if p.category == "smartphones" then { p with price := p.price * (121 / 100) } else p) := by
  simp only [update_smartphone_prices, List.map_map]
  refine List.map_congr_left ?_
  intro p hp
  by_cases hc : p.category == "smartphones"
  · simp [Function.comp, hc, mul_assoc]
    norm_num
  · simp [Function.comp, hc]

/-- Menu choice "9" answered with "y" applies `update_smartphone_prices` to
the pending state and commits it. -/
theorem menuStep_nine_commit (fk : Bool) (today : String) (st : ConnState) :
    menuStep fk today st "9" "y" false =
      (⟨(update_smartphone_prices st.pending).1, (update_smartphone_prices st.pending).1⟩,
       [Effect.savePrompt, Effect.commit]) := by
  simp [menuStep, runAction, isModification,
    show ("9" : String) ∈ validChoices from by decide,
    show (strLower "y" == "y") = true from by decide]

/-- C5: running update-smartphone-prices twice through the menu, with a
commit between the two applications, leaves every smartphone with price
`121/100` times its seeded price (1.10 applied twice); the second
application changes the table again, so the operation is not idempotent. -/
theorem c5_smartphone_price_update_compounds :
    ∀ today : String,
      ((menuStep false today ((menuStep false today ⟨seededDB today, seededDB today⟩ "9" "y" false).1)
          "9" "y" false).1).committed.products =
        (seededDB today).products.map (fun p =>
          if p.category == "smartphones" then { p with price := p.price * (121 / 100) } else p) ∧
      ((menuStep false today ((menuStep false today ⟨seededDB today, seededDB today⟩ "9" "y" false).1)
          "9" "y" false).1).committed.products ≠
        ((menuStep false today ⟨seededDB today, seededDB today⟩ "9" "y" false).1).committed.products := by
  intro today
  rw [menuStep_nine_commit, menuStep_nine_commit]
  constructor
  · exact update_smartphone_prices_twice _
  · rw [seededDB_eq]
    simp [update_smartphone_prices, seedRows]
    norm_num

/-- Filtering by a key that occurs nowhere in the list yields nothing. -/
theorem nodup_key_filter_eq_nil {α : Type} (key : α → Nat) (l : List α) (x : Nat)
    (h : x ∉ l.map key) : l.filter (fun a => key a == x) = [] := by
  rw [List.filter_eq_nil_iff]
  intro a ha hbeq
  have hkey : key a = x := by simpa using hbeq
  exact h (hkey ▸ List.mem_map_of_mem key ha)

/-- A group total ignores a leading row with a different order id. -/
theorem orderTotal_cons_ne (r : Order × Product) (rest : List (Order × Product)) (i : Nat)
    (h : ¬ r.1.id = i) : orderTotal (r :: rest) i = orderTotal rest i := by
  have hb : (r.1.id == i) = false := by simpa using h
  simp [orderTotal, List.filter_cons, hb]

/-- When no later row shares the leading row's order id, that group's total
is the row's own `price * quantity`. -/
theorem orderTotal_cons_self (r : Order × Product) (rest : List (Order × Product))
    (h : r.1.id ∉ rest.map (fun a => a.1.id)) :
    orderTotal (r :: rest) r.1.id = r.2.price * (r.1.quantity : ℚ) := by
  have hnil := nodup_key_filter_eq_nil (fun a : Order × Product => a.1.id) rest r.1.id h
  simp [orderTotal, List.filter_cons, hnil]

/-- With pairwise-distinct order ids, the per-id group totals are exactly
the individual rows' `price * quantity` values. -/
theorem map_orderTotal_of_nodup :
    ∀ rows : List (Order × Product),
      (rows.map (fun r => r.1.id)).Nodup →
      (rows.map (fun r => r.1.id)).map (orderTotal rows) =
        rows.map (fun r => r.2.price * (r.1.quantity : ℚ)) := by
  intro rows
  induction rows with
  | nil => intro _; rfl
  | cons r rest ih =>
    intro h
    rw [List.map_cons, List.nodup_cons] at h
    obtain ⟨h1, h2⟩ := h
    rw [List.map_cons, List.map_cons, List.map_cons]
    congr 1
    · exact orderTotal_cons_self r rest h1
    · calc (rest.map (fun a => a.1.id)).map (orderTotal (r :: rest))
          = (rest.map (fun a => a.1.id)).map (orderTotal rest) := by
            refine List.map_congr_left ?_
            intro i hi
            refine orderTotal_cons_ne r rest i ?_
            intro hri
            exact h1 (by rw [hri]; exact hi)
        _ = rest.map (fun a => a.2.price * (a.1.quantity : ℚ)) := ih h2

theorem nodup_of_length_le_one {α : Type} (l : List α) (h : l.length ≤ 1) : l.Nodup := by
  match l with
  | [] => exact List.nodup_nil
  | [a] => exact List.nodup_singleton a
  | a :: b :: t => simp [List.length_cons] at h

/-- A primary key (pairwise-distinct ids) matches at most one row. -/
theorem length_filter_key_le_one {α : Type} (key : α → Nat) :
    ∀ l : List α, (l.map key).Nodup → ∀ x, (l.filter (fun a => key a == x)).length ≤ 1 := by
  intro l
  induction l with
  | nil => intro _ x; simp
  | cons a t ih =>
    intro h x
    rw [List.map_cons, List.nodup_cons] at h
    obtain ⟨h1, h2⟩ := h
    by_cases hx : key a = x
    · rw [List.filter_cons_of_pos (by simpa using hx)]
      have hnil : t.filter (fun b => key b == x) = [] :=
        nodup_key_filter_eq_nil key t x (by rw [← hx]; exact h1)
      rw [hnil]
      simp
    · rw [List.filter_cons_of_neg (by simpa using hx)]
      exact ih h2 x

/-- With distinct product ids and distinct order ids, each order contributes
at most one join row, so the join's order-id column is duplicate-free. -/
theorem flatMap_const_keys_nodup (prods : List Product)
    (hp : (prods.map Product.id).Nodup) :
    ∀ os : List Order, (os.map Order.id).Nodup →
      (os.flatMap (fun o => (prods.filter (fun p => p.id == o.product_id)).map
        (fun _ => o.id))).Nodup := by
  intro os
  induction os with
  | nil => intro _; simp
  | cons o os ih =>
    intro h
    rw [List.map_cons, List.nodup_cons] at h
    obtain ⟨h1, h2⟩ := h
    rw [List.flatMap_cons]
    refine List.Nodup.append ?_ (ih h2) ?_
    · refine nodup_of_length_le_one _ ?_
      rw [List.length_map]
      exact length_filter_key_le_one Product.id prods hp o.product_id
    · intro x hx1 hx2
      obtain ⟨p, _, hpx⟩ := List.mem_map.mp hx1
      obtain ⟨o', ho', hmem⟩ := List.mem_flatMap.mp hx2
      obtain ⟨q, _, hqx⟩ := List.mem_map.mp hmem
      refine h1 ?_
      have hoo : o.id = o'.id := hpx.trans hqx.symm
      rw [hoo]
      exact List.mem_map_of_mem Order.id ho'

theorem joinOP_keys_nodup (db : DBState)
    (hp : (db.products.map Product.id).Nodup)
    (ho : (db.orders.map Order.id).Nodup) :
    ((joinOP db).map (fun r => r.1.id)).Nodup := by
  have heq : (joinOP db).map (fun r => r.1.id) =
      db.orders.flatMap (fun o => (db.products.filter (fun p => p.id == o.product_id)).map
        (fun _ => o.id)) := by
    simp [joinOP, List.map_flatMap, List.map_map, Function.comp_def]
  rw [heq]
  exact flatMap_const_keys_nodup db.products hp db.orders ho

/-- Averaging singleton group totals equals averaging the rows directly. -/
theorem avg_groups_eq_mean (rows : List (Order × Product))
    (h : (rows.map (fun r => r.1.id)).Nodup) :
    (if ((rows.map (fun r => r.1.id)).dedup).isEmpty then (none : Option ℚ)
     else some ((((rows.map (fun r => r.1.id)).dedup).map (orderTotal rows)).sum /
       ((((rows.map (fun r => r.1.id)).dedup).length : ℚ)))) =
    (if rows.isEmpty then none
     else some ((rows.map (fun r => r.2.price * (r.1.quantity : ℚ))).sum / (rows.length : ℚ))) := by
  rw [List.dedup_eq_self.mpr h, map_orderTotal_of_nodup rows h, List.length_map]
  cases rows with
  | nil => rfl
  | cons r t => rfl

/-- C7: when product ids and order ids are pairwise distinct (the schema's
primary keys), the average-order-value query — mean over per-order-id group
totals — equals the plain mean of `price * quantity` over the individual
join rows, as the spec asserts. -/
theorem c7_average_order_value_eq_plain_mean (db : DBState)
    (hp : (db.products.map Product.id).Nodup)
    (ho : (db.orders.map Order.id).Nodup) :
    get_average_order_value db = spec_average_order_value db := by
  have h := avg_groups_eq_mean (joinOP db) (joinOP_keys_nodup db hp ho)
  simpa [get_average_order_value, spec_average_order_value] using h

/-- Witness for C7 at the seeded database. -/
theorem c7_average_order_value_eq_plain_mean_witness :
    ((seededDB "2026-10-12").products.map Product.id).Nodup ∧
    ((seededDB "2026-10-12").orders.map Order.id).Nodup ∧
    get_average_order_value (seededDB "2026-10-12") =
      spec_average_order_value (seededDB "2026-10-12") :=
  ⟨by decide, by decide,
   c7_average_order_value_eq_plain_mean _ (by decide) (by decide)⟩

/-- Dropping the customers the inner join would drop anyway (those with no
order) does not change the join. -/
theorem joinCO_filter_has_order (os : List Order) :
    ∀ cs : List Customer,
      (cs.filter (hasOrder os)).flatMap
        (fun c => (os.filter (fun o => o.customer_id == c.id)).map (fun o => (c, o))) =
      cs.flatMap (fun c => (os.filter (fun o => o.customer_id == c.id)).map (fun o => (c, o))) := by
  intro cs
  induction cs with
  | nil => rfl
  | cons c cs ih =>
    by_cases h : hasOrder os c = true
    · simp only [List.filter_cons, h, if_true, List.flatMap_cons, ih]
    · simp only [List.filter_cons, h, if_false, Bool.false_eq_true, ite_false]
      rw [List.flatMap_cons, ih]
      have hnil : os.filter (fun o => o.customer_id == c.id) = [] := by
        rw [List.filter_eq_nil_iff]
        intro o ho hbeq
        exact h (List.any_eq_true.mpr ⟨o, ho, hbeq⟩)
      rw [hnil]
      simp

/-- C10: the orders-per-customer report is an inner join: removing every
customer without an order leaves the output unchanged (so orderless
customers never appear in it), and every emitted row's count is at least
one — no zero-count row is ever produced. -/
theorem c10_customers_without_orders_absent (db : DBState) :
    get_orders_per_customer db =
      get_orders_per_customer
        { db with customers := db.customers.filter (hasOrder db.orders) } ∧
    ∀ row ∈ get_orders_per_customer db, 1 ≤ row.2.2 := by
  constructor
  · have hj : joinCO { db with customers := db.customers.filter (hasOrder db.orders) } =
        joinCO db := by
      simpa [joinCO] using joinCO_filter_has_order db.orders db.customers
    simp only [get_orders_per_customer, hj]
  · intro row hrow
    simp only [get_orders_per_customer, List.mem_map] at hrow
    obtain ⟨i, hi, hrow⟩ := hrow
    have hi2 : i ∈ (joinCO db).map (fun r => r.1.id) := List.mem_dedup.mp hi
    obtain ⟨r, hr, hkey⟩ := List.mem_map.mp hi2
    have hmem : r ∈ (joinCO db).filter (fun r => r.1.id == i) :=
      List.mem_filter.mpr ⟨hr, by simp [hkey]⟩
    rcases hfil : (joinCO db).filter (fun r => r.1.id == i) with _ | ⟨a, t⟩
    · rw [hfil] at hmem; cases hmem
    · rw [← hrow]
      simp [customerRow, hfil]

end Shop
